import Mathlib

/-
Verification development for the fertility-window backend (src/app.py).

Modelling conventions:
* A calendar date (Python `datetime` at midnight) is modelled as an `Int`
  counting days; `timedelta(days = k)` is addition of `k`.  The helper
  `daysFromCivil` converts a Gregorian `(year, month, day)` triple to that
  day count (Hinnant's civil-from-days algorithm, epoch 1970-01-01 = 0),
  so concrete scenarios can be stated with real calendar dates.
* Python `int(x)` on a float truncates toward zero; `cycle_length * 0.6`
  is evaluated here in exact arithmetic as `(cycle_length * 3).tdiv 5`
  (`Int.tdiv` truncates toward zero).  For the magnitudes a cycle length
  can have, the double-precision product `cycle_length * 0.6` rounds to
  the double nearest to the exact value, so truncating it agrees with
  truncating the exact product; the embedding is exact arithmetic.
* Python `round(s / 3)` rounds half to even, but `s / 3` for an integer
  `s` is never an exact half, so it equals rounding to the nearest
  integer, embedded as `(2 * s + 3).fdiv 6` (`Int.fdiv` is floor
  division).
* A pandas DataFrame is a `Table`: a list of column names plus rows; a
  row is an association list from column names to cells, and a cell is
  `Option String` with `none` standing for an empty cell (pandas `NaN`).
  `Series.get col` returns Python `None` exactly when `col` is not among
  the table's columns; an empty cell is `NaN`, which is *not* `None`,
  and `str(NaN)` is the text "nan" — captured by `row_cell`/`str_cell`.
* The request handlers are embedded as total pure functions; `print`
  calls become an explicit list of log lines, and the JSON response is a
  structure.  In `ReceiveDataResponse`, `fields = none` models a JSON
  object carrying only the `success` and `message` keys.
-/

/-- Calendar dates are modelled as integer day numbers. -/
abbrev Date := Int

/-- Day number of a Gregorian date (epoch 1970-01-01 = day 0), for years ≥ 1.
Hinnant's civil-from-days algorithm, specialised to nonnegative years. -/
def daysFromCivil (y m d : Nat) : Date :=
  let yAdj := if m ≤ 2 then y - 1 else y
  let era := yAdj / 400
  let yoe := yAdj % 400
  let mp := (m + 9) % 12
  let doy := (153 * mp + 2) / 5 + (d - 1)
  let doe := yoe * 365 + yoe / 4 - yoe / 100 + doy
  (↑(era * 146097 + doe) : Int) - 719468

/-- src/app.py lines 10-16: `calculate_ovulation_day(lmp_date, cycle_length, has_pcos)`.
`int(cycle_length * 0.6)` is embedded as exact truncated division
`(cycle_length * 3).tdiv 5` (see the header comment on floats). -/
def calculate_ovulation_day (lmp_date : Date) (cycle_length : Int) (has_pcos : Bool) : Date :=
  let days_to_ovulation := if has_pcos then (cycle_length * 3).tdiv 5 else cycle_length - 14
  lmp_date + days_to_ovulation

/-- The dict `{start, end}` returned by `calculate_fertile_window`; the Python
key `end` is a Lean keyword, so the fields are `wstart`/`wend`. -/
structure FertileWindow where
  wstart : Date
  wend : Date
deriving Repr, DecidableEq

/-- src/app.py lines 18-21: `calculate_fertile_window(ovulation_day)`. -/
def calculate_fertile_window (ovulation_day : Date) : FertileWindow :=
  { wstart := ovulation_day - 5, wend := ovulation_day + 1 }

/-- Python `max` over a nonempty list (the program only ever applies it to a
three-element list; the `[]` case is unreachable and defaulted to 0). -/
def list_max : List Int → Int
  | [] => 0
  | x :: xs => xs.foldl max x

/-- Python `min` over a nonempty list (same remark as `list_max`). -/
def list_min : List Int → Int
  | [] => 0
  | x :: xs => xs.foldl min x

/-- src/app.py lines 23-28: `analyze_cycle_regularity(cycle_lengths, has_pcos)`. -/
def analyze_cycle_regularity (cycle_lengths : List Int) (has_pcos : Bool) : String :=
  if has_pcos then "Irregular - PCOS may cause irregular cycles"
  else if list_max cycle_lengths - list_min cycle_lengths > 8 then "Irregular"
  else "Regular"

/-- src/app.py lines 31-39: the fixed `probabilities` table of
`{day_offset, prob}` pairs. -/
def probabilities : List (Int × String) :=
  [(-5, "Low (~4%)"), (-4, "Low (~10%)"), (-3, "Medium (~15%)"), (-2, "High (~27%)"),
   (-1, "High (~30%)"), (0, "Peak (~33%)"), (1, "Very Low")]

/-- src/app.py lines 30-48: `calculate_conception_probability(fertile_window)`.
Each output entry keeps the day itself (the source formats it as a
month-day string for display). -/
def calculate_conception_probability (fertile_window : FertileWindow) : List (Date × String) :=
  (List.range 7).map fun (i : Nat) =>
    (fertile_window.wstart + (i : Int), (probabilities.getD i (0, "")).2)

/-- A spreadsheet cell; `none` models an empty cell (pandas `NaN`). -/
abbrev Cell := Option String

/-- A spreadsheet row: column name to cell.  A column of the table missing
from the association list is an implicit empty (`NaN`) cell. -/
abbrev Row := List (String × Cell)

/-- A parsed pandas DataFrame: its column names and its rows. -/
structure Table where
  cols : List String
  rows : List Row
deriving Repr, DecidableEq

/-- Pandas `user_row.get(col, None)` on a row of table `t`: `none` (Python
`None`) when `col` is not a column of the table, otherwise the cell —
which is the empty cell `NaN` when absent from the row. -/
def row_cell (t : Table) (r : Row) (col : String) : Option Cell :=
  if col ∈ t.cols then some (((r.find? fun p => p.1 == col).map Prod.snd).getD none)
  else none

/-- Pandas filtering of the rows whose `user_id` cell equals `name`
(src/app.py lines 83 and 151); an empty `user_id` cell never equals a
string. -/
def matching_rows (t : Table) (name : String) : List Row :=
  t.rows.filter fun r => row_cell t r "user_id" == some (some name)

/-- Outcome of `pd.read_csv` / `pd.read_excel` on an uploaded file: either an
exception (caught by the handlers) or a table. -/
inductive ParsedFile where
  | failure (err : String)
  | table (t : Table)
deriving Repr, DecidableEq

/-- An uploaded file as the handlers see it: its filename and what parsing
it yields.  The csv-versus-excel dispatch on the filename suffix is
absorbed into `parsed`. -/
structure FileUpload where
  filename : String
  parsed : ParsedFile
deriving Repr, DecidableEq

/-- Python `str(value)` on a cell: an empty cell is `NaN` and renders as
the text "nan". -/
def str_cell : Cell → String
  | none => "nan"
  | some s => s

/-- src/app.py lines 134-139: the ten fixed cycle-history columns. -/
def columns_to_load : List String :=
  ["LMP_Cycle_1", "LMP_Cycle_2", "LMP_Cycle_3",
   "Cycle_Length_1", "Cycle_Length_2", "Cycle_Length_3",
   "Period_Duration_1", "Period_Duration_2", "Period_Duration_3",
   "is_pcos"]

/-- The JSON object built by `receive_data`: `fields = none` models a
response carrying only the `success` and `message` keys; `fields = some l`
models the ten extra keys, each `none` value being JSON `null`. -/
structure ReceiveDataResponse where
  success : Bool
  message : String
  fields : Option (List (String × Option String))
deriving Repr, DecidableEq

/-- src/app.py lines 128-170: the `/receive_data` handler, as a pure total
function of the form field `name` and the optional uploaded file. -/
def receive_data (name : String) (bbt_file : Option FileUpload) : ReceiveDataResponse :=
  match bbt_file with
  | none => { success := false, message := "No file uploaded.", fields := none }
  | some f =>
    if f.filename == "" then
      { success := false, message := "No file uploaded.", fields := none }
    else
      match f.parsed with
      | ParsedFile.failure e =>
          { success := false, message := "Error reading file: " ++ e, fields := none }
      | ParsedFile.table t =>
          if "user_id" ∈ t.cols then
            match matching_rows t name with
            | [] =>
                { success := false,
                  message := "No rows found for user_id \x27" ++ name ++ "\x27.",
                  fields := none }
            | user_row :: _ =>
                { success := true,
                  message := "Data loaded for user \x27" ++ name ++ "\x27.",
                  fields := some (columns_to_load.map fun col =>
                    (col, (row_cell t user_row col).map str_cell)) }
          else
            { success := false,
              message := "No \x27user_id\x27 column found in the file.",
              fields := none }

/-- Python `round(s / 3)` for an integer `s` (see the header comment:
never an exact half, so nearest-integer rounding, i.e. `⌊s/3 + 1/2⌋`). -/
def py_round_div3 (s : Int) : Int := (2 * s + 3).fdiv 6

/-- src/app.py line 85: the BBT column aliases scanned in order. -/
def bbt_columns : List String := ["bbt", "BBT", "temperature", "Temperature"]

/-- src/app.py lines 71-97: the BBT block of `/predict`.  It only `print`s;
the embedding returns the log lines.  The printed floating-point mean is
abstracted to the name of the column it came from. -/
def bbt_section (name : String) (has_pcos : Bool) (bbt_file : Option FileUpload) : List String :=
  if has_pcos then
    match bbt_file with
    | none => []
    | some f =>
      if f.filename == "" then []
      else
        ("Received file: " ++ f.filename) ::
        match f.parsed with
        | ParsedFile.failure e => ["Error reading file: " ++ e]
        | ParsedFile.table t =>
          if "user_id" ∈ t.cols then
            match matching_rows t name with
            | [] => ["No rows found for user_id \x27" ++ name ++ "\x27."]
            | _ :: _ =>
              match bbt_columns.find? (fun col => t.cols.contains col) with
              | some col => ["Average BBT for user \x27" ++ name ++ "\x27 from column " ++ col]
              | none => ["No BBT column found in the file."]
          else ["No \x27user_id\x27 column found in the file."]
  else []

/-- The JSON object built by `/predict` (src/app.py lines 112-124).  Dates
stay as day numbers; the source formats them as long-form date strings. -/
structure PredictResponse where
  fertileWindow : FertileWindow
  ovulationDay : Date
  cycleRegularity : String
  conceptionProbability : List (Date × String)
  averageCycleLength : Int
  averagePeriodDuration : Int
deriving Repr, DecidableEq

/-- src/app.py lines 99-126: the calculation part of `/predict`, from the
parsed form fields (the three cycle lengths, three period durations,
`lmpDate3`, and the pcos flag). -/
def predict (c1 c2 c3 p1 p2 p3 : Int) (lmp_date : Date) (has_pcos : Bool) : PredictResponse :=
  let cycle_lengths : List Int := [c1, c2, c3]
  let avg_cycle_length := py_round_div3 cycle_lengths.sum
  let avg_period_duration := py_round_div3 ([p1, p2, p3] : List Int).sum
  let next_lmp_date := lmp_date + avg_cycle_length
  let ovulation_day := calculate_ovulation_day next_lmp_date avg_cycle_length has_pcos
  let fertile_window := calculate_fertile_window ovulation_day
  { fertileWindow := fertile_window
    ovulationDay := ovulation_day
    cycleRegularity := analyze_cycle_regularity cycle_lengths has_pcos
    conceptionProbability := calculate_conception_probability fertile_window
    averageCycleLength := avg_cycle_length
    averagePeriodDuration := avg_period_duration }

/-- src/app.py lines 54-126: the whole `/predict` handler: the BBT block
runs first (producing only log lines), then the calculations; the JSON
response is the first component. -/
def predict_handler (name : String) (c1 c2 c3 p1 p2 p3 : Int) (lmp_date : Date)
    (has_pcos : Bool) (bbt_file : Option FileUpload) : PredictResponse × List String :=
  (predict c1 c2 c3 p1 p2 p3 lmp_date has_pcos, bbt_section name has_pcos bbt_file)

/-! ### Helper lemmas -/

lemma list_max_triple (a b c : Int) : list_max [a, b, c] = max a (max b c) := by
  simp [list_max]
  rw [max_assoc]

lemma list_min_triple (a b c : Int) : list_min [a, b, c] = min a (min b c) := by
  simp [list_min]
  rw [min_assoc]

lemma py_round_div3_eq_round (s : Int) : py_round_div3 s = round ((s : ℚ) / 3) := by
  rw [round_eq]
  have h1 : ((s : ℚ)) / 3 + 1 / 2 = ((2 * s + 3 : ℤ) : ℚ) / ((6 : ℕ) : ℚ) := by
    push_cast
    ring
  rw [h1, Rat.floor_intCast_div_natCast]
  unfold py_round_div3
  rw [Int.fdiv_eq_ediv _ (by norm_num)]
  norm_num

lemma char3_append (a b : String) (h : 3 < a.data.length) :
    (a ++ b).data[3]? = a.data[3]? := by
  rw [String.data_append]
  exact List.getElem?_append_left h

lemma ne_of_char3 {s t : String} {cs ct : Option Char} (hs : s.data[3]? = cs)
    (ht : t.data[3]? = ct) (hne : cs ≠ ct) : s ≠ t := by
  intro h
  apply hne
  rw [← hs, ← ht, h]

lemma msg_error_char3 (e : String) :
    ("Error reading file: " ++ e).data[3]? = some 'o' := by
  rw [char3_append _ _ (by decide)]
  decide

lemma msg_norows_char3 (name : String) :
    ("No rows found for user_id \x27" ++ name ++ "\x27.").data[3]? = some 'r' := by
  have h1 : 3 < ("No rows found for user_id \x27" ++ name).data.length := by
    rw [String.data_append, List.length_append]
    have h2 : 3 < "No rows found for user_id \x27".data.length := by decide
    omega
  rw [char3_append _ _ h1, char3_append _ _ (by decide)]
  decide

lemma user_id_mem_of_match {t : Table} {name : String} {r : Row} {rest : List Row}
    (hmatch : matching_rows t name = r :: rest) : "user_id" ∈ t.cols := by
  by_contra hcol
  have hnone : ∀ row ∈ t.rows, ¬(row_cell t row "user_id" == some (some name)) = true := by
    intro row _
    simp [row_cell, hcol]
  have : matching_rows t name = [] := List.filter_eq_nil_iff.mpr hnone
  rw [this] at hmatch
  exact List.noConfusion hmatch

lemma lookup_map_of_mem (f : String → Option String) (l : List String) (col : String)
    (h : col ∈ l) : (l.map fun c => (c, f c)).lookup col = some (f col) := by
  induction l with
  | nil => cases h
  | cons c cs ih =>
    by_cases hc : col = c
    · subst hc
      simp [List.lookup]
    · have hbeq : (col == c) = false := beq_eq_false_iff_ne.mpr hc
      rcases List.mem_cons.mp h with h1 | h1
      · exact absurd h1 hc
      · simpa [List.lookup, hbeq] using ih h1

/-! ### The claims -/

/-- Claim C1: for every reference date and positive `cycleLength`,
`calculate_ovulation_day` returns `referenceDate + (cycleLength - 14)` days
when `has_pcos` is false, and `referenceDate + floor(cycleLength * 0.6)`
days when it is true. -/
theorem c1_ovulation_day_formula (referenceDate cycleLength : Int) (h : 0 < cycleLength) :
    calculate_ovulation_day referenceDate cycleLength false
        = referenceDate + (cycleLength - 14) ∧
    calculate_ovulation_day referenceDate cycleLength true
        = referenceDate + ⌊(cycleLength : ℚ) * 0.6⌋ := by
  refine ⟨rfl, ?_⟩
  have h1 : ((cycleLength : ℚ)) * 0.6 = ((3 * cycleLength : ℤ) : ℚ) / ((5 : ℕ) : ℚ) := by
    push_cast
    ring
  have h2 : ⌊(cycleLength : ℚ) * 0.6⌋ = (3 * cycleLength) / (5 : ℤ) := by
    rw [h1, Rat.floor_intCast_div_natCast]
    norm_num
  show referenceDate + (cycleLength * 3).tdiv 5 = _
  rw [h2, Int.tdiv_eq_ediv (by nlinarith) (by norm_num), mul_comm]

/-- Witness for C1 at `referenceDate = 100`, `cycleLength = 28`. -/
theorem c1_ovulation_day_formula_witness :
    calculate_ovulation_day 100 28 false = 100 + (28 - 14) ∧
    calculate_ovulation_day 100 28 true = 100 + ⌊(28 : ℚ) * 0.6⌋ :=
  c1_ovulation_day_formula 100 28 (by norm_num)

/-- Claim C2: for every ovulation day `d`, the fertile window is
`[d - 5, d + 1]`: the end is the start plus 6 days, so the window spans
exactly 7 inclusive days. -/
theorem c2_fertile_window (d : Date) :
    (calculate_fertile_window d).wstart = d - 5 ∧
    (calculate_fertile_window d).wend = d + 1 ∧
    (calculate_fertile_window d).wend = (calculate_fertile_window d).wstart + 6 ∧
    (calculate_fertile_window d).wend - (calculate_fertile_window d).wstart + 1 = 7 := by
  refine ⟨rfl, rfl, ?_, ?_⟩
  · show d + 1 = d - 5 + 6
    ring
  · show d + 1 - (d - 5) + 1 = 7
    ring

/-- Counterexample to C3 as stated: with the condition flag set the code
returns the string "Irregular - PCOS may cause irregular cycles", not the
claimed literal "Irregular (condition-flagged)". -/
theorem c3_counterexample :
    analyze_cycle_regularity [28, 28, 28] true ≠ "Irregular (condition-flagged)" := by
  decide

/-- Claim C3 (amended): for every triple of cycle lengths,
`analyze_cycle_regularity` returns exactly the string
"Irregular - PCOS may cause irregular cycles" when the condition flag is
true (regardless of the lengths); otherwise it returns "Irregular" when
`max - min > 8` and "Regular" when `max - min ≤ 8`; in particular a spread
of exactly 8 yields "Regular". -/
theorem c3_regularity_amended (a b c : Int) (p : Bool) :
    (analyze_cycle_regularity [a, b, c] p =
      if p then "Irregular - PCOS may cause irregular cycles"
      else if 8 < max a (max b c) - min a (min b c) then "Irregular"
      else "Regular") ∧
    (p = false → max a (max b c) - min a (min b c) = 8 →
      analyze_cycle_regularity [a, b, c] p = "Regular") := by
  constructor
  · unfold analyze_cycle_regularity
    rw [list_max_triple, list_min_triple]
  · rintro rfl h
    unfold analyze_cycle_regularity
    rw [list_max_triple, list_min_triple]
    simp [h]

/-- Witness for C3 (amended) at a spread of exactly 8. -/
theorem c3_regularity_amended_witness :
    analyze_cycle_regularity [20, 28, 24] false = "Regular" :=
  (c3_regularity_amended 20 28 24 false).2 rfl (by decide)

/-- Claim C4: for every fertile window, `calculate_conception_probability`
returns exactly 7 entries, whose dates are `wstart + 0..6` in chronological
order, with the literal labels at offsets 0..6. -/
theorem c4_conception_probability (fw : FertileWindow) :
    calculate_conception_probability fw =
      [(fw.wstart, "Low (~4%)"), (fw.wstart + 1, "Low (~10%)"),
       (fw.wstart + 2, "Medium (~15%)"), (fw.wstart + 3, "High (~27%)"),
       (fw.wstart + 4, "High (~30%)"), (fw.wstart + 5, "Peak (~33%)"),
       (fw.wstart + 6, "Very Low")] ∧
    (calculate_conception_probability fw).length = 7 := by
  constructor
  · simp [calculate_conception_probability, probabilities, List.range_succ]
  · simp [calculate_conception_probability]

/-- Claim C5: in `/predict` the insights are the rounded arithmetic means of
the three cycle lengths and three period durations, and the reference date
fed into the ovulation computation is `lmpDate3 + averageCycleLength` days
(the projected next cycle), not `lmpDate3` itself. -/
theorem c5_predict_next_cycle (c1 c2 c3 p1 p2 p3 : Int) (lmp : Date) (b : Bool) :
    (predict c1 c2 c3 p1 p2 p3 lmp b).averageCycleLength = round ((c1 + c2 + c3 : ℚ) / 3) ∧
    (predict c1 c2 c3 p1 p2 p3 lmp b).averagePeriodDuration = round ((p1 + p2 + p3 : ℚ) / 3) ∧
    (predict c1 c2 c3 p1 p2 p3 lmp b).ovulationDay =
      calculate_ovulation_day (lmp + (predict c1 c2 c3 p1 p2 p3 lmp b).averageCycleLength)
        (predict c1 c2 c3 p1 p2 p3 lmp b).averageCycleLength b := by
  refine ⟨?_, ?_, rfl⟩
  · show py_round_div3 ([c1, c2, c3] : List Int).sum = _
    rw [py_round_div3_eq_round]
    norm_num [List.sum_cons]
    rw [← add_assoc]
  · show py_round_div3 ([p1, p2, p3] : List Int).sum = _
    rw [py_round_div3_eq_round]
    norm_num [List.sum_cons]
    rw [← add_assoc]

/-- Claim C6: for cycles `[28, 30, 26]`, durations `[5, 6, 5]`,
`lmpDate3 = 2024-01-01`, `pcos = false`: the average cycle length is 28,
the projected next LMP is 2024-01-29, the ovulation day is 2024-02-12, the
fertile window is `[2024-02-07, 2024-02-13]`, and the regularity is
"Regular". -/
theorem c6_round_trip_scenario :
    (predict 28 30 26 5 6 5 (daysFromCivil 2024 1 1) false).averageCycleLength = 28 ∧
    daysFromCivil 2024 1 1 + (predict 28 30 26 5 6 5 (daysFromCivil 2024 1 1) false).averageCycleLength
      = daysFromCivil 2024 1 29 ∧
    (predict 28 30 26 5 6 5 (daysFromCivil 2024 1 1) false).ovulationDay = daysFromCivil 2024 2 12 ∧
    (predict 28 30 26 5 6 5 (daysFromCivil 2024 1 1) false).fertileWindow.wstart = daysFromCivil 2024 2 7 ∧
    (predict 28 30 26 5 6 5 (daysFromCivil 2024 1 1) false).fertileWindow.wend = daysFromCivil 2024 2 13 ∧
    (predict 28 30 26 5 6 5 (daysFromCivil 2024 1 1) false).cycleRegularity = "Regular" := by
  decide

/-- Claim C7: each of the four `receive_data` error conditions — no file
provided (or an empty filename), unreadable/unparseable file, no `user_id`
column, no row matching the given name — yields a response with
`success = false` and a distinct descriptive message, and the handler is a
total function returning a well-formed response in every case. -/
theorem c7_receive_data_errors (name e fn : String) (t : Table) :
    (receive_data name none = ⟨false, "No file uploaded.", none⟩) ∧
    (∀ p : ParsedFile, receive_data name (some ⟨"", p⟩) = ⟨false, "No file uploaded.", none⟩) ∧
    (fn ≠ "" → receive_data name (some ⟨fn, ParsedFile.failure e⟩) =
        ⟨false, "Error reading file: " ++ e, none⟩) ∧
    (fn ≠ "" → "user_id" ∉ t.cols → receive_data name (some ⟨fn, ParsedFile.table t⟩) =
        ⟨false, "No \x27user_id\x27 column found in the file.", none⟩) ∧
    (fn ≠ "" → "user_id" ∈ t.cols → matching_rows t name = [] →
        receive_data name (some ⟨fn, ParsedFile.table t⟩) =
        ⟨false, "No rows found for user_id \x27" ++ name ++ "\x27.", none⟩) ∧
    ("No file uploaded." ≠ "Error reading file: " ++ e) ∧
    ("No file uploaded." ≠ "No \x27user_id\x27 column found in the file.") ∧
    ("No file uploaded." ≠ "No rows found for user_id \x27" ++ name ++ "\x27.") ∧
    ("Error reading file: " ++ e ≠ "No \x27user_id\x27 column found in the file.") ∧
    ("Error reading file: " ++ e ≠ "No rows found for user_id \x27" ++ name ++ "\x27.") ∧
    ("No \x27user_id\x27 column found in the file." ≠
      "No rows found for user_id \x27" ++ name ++ "\x27.") := by
  refine ⟨rfl, fun p => rfl, ?_, ?_, ?_, ?_, ?_, ?_, ?_, ?_, ?_⟩
  · intro hfn
    simp [receive_data, hfn]
  · intro hfn hcol
    simp [receive_data, hfn, hcol]
  · intro hfn hcol hm
    simp [receive_data, hfn, hcol, hm]
  · exact @ne_of_char3 _ _ (some 'f') (some 'o') (by decide) (msg_error_char3 e) (by decide)
  · exact @ne_of_char3 _ _ (some 'f') (some '\x27') (by decide) (by decide) (by decide)
  · exact @ne_of_char3 _ _ (some 'f') (some 'r') (by decide) (msg_norows_char3 name) (by decide)
  · exact @ne_of_char3 _ _ (some 'o') (some '\x27') (msg_error_char3 e) (by decide) (by decide)
  · exact @ne_of_char3 _ _ (some 'o') (some 'r') (msg_error_char3 e) (msg_norows_char3 name) (by decide)
  · exact @ne_of_char3 _ _ (some '\x27') (some 'r') (by decide) (msg_norows_char3 name) (by decide)

/-- Witness for C7: a parsed table with no `user_id` column. -/
theorem c7_receive_data_errors_witness :
    receive_data "alice" (some ⟨"data.csv", ParsedFile.table ⟨["temp"], []⟩⟩) =
      ⟨false, "No \x27user_id\x27 column found in the file.", none⟩ :=
  (c7_receive_data_errors "alice" "boom" "data.csv" ⟨["temp"], []⟩).2.2.2.1
    (by decide) (by decide)

/-- Counterexample to C8 as stated: for a matching row in which the column
`LMP_Cycle_1` is present but its cell is empty (pandas `NaN`), the handler
returns the text "nan" for that field, not the null absent marker. -/
theorem c8_counterexample :
    ((receive_data "alice" (some ⟨"f.csv", ParsedFile.table
        ⟨["user_id", "LMP_Cycle_1"],
         [[("user_id", some "alice"), ("LMP_Cycle_1", none)]]⟩⟩)).fields.getD []).lookup
      "LMP_Cycle_1" = some (some "nan") ∧
    ((receive_data "alice" (some ⟨"f.csv", ParsedFile.table
        ⟨["user_id", "LMP_Cycle_1"],
         [[("user_id", some "alice"), ("LMP_Cycle_1", none)]]⟩⟩)).fields.getD []).lookup
      "LMP_Cycle_1" ≠ some none := by
  decide

/-- Claim C8 (amended): when at least one row matches, only the first
matching row is read and `success` is true; each of the ten fixed columns
carries the null absent marker exactly when the column is absent from the
table, and otherwise the cell text — an empty cell in a present column
being rendered as the text "nan", not the absent marker. -/
theorem c8_first_match_fields (name fn : String) (t : Table) (r : Row) (rest : List Row)
    (hfn : fn ≠ "") (hmatch : matching_rows t name = r :: rest) :
    (receive_data name (some ⟨fn, ParsedFile.table t⟩)).success = true ∧
    (receive_data name (some ⟨fn, ParsedFile.table t⟩)).fields =
      some (columns_to_load.map fun col => (col, (row_cell t r col).map str_cell)) ∧
    (∀ col ∈ columns_to_load, col ∉ t.cols →
      (columns_to_load.map fun c => (c, (row_cell t r c).map str_cell)).lookup col
        = some none) ∧
    (∀ col ∈ columns_to_load, col ∈ t.cols →
      (columns_to_load.map fun c => (c, (row_cell t r c).map str_cell)).lookup col
        = some (some (str_cell (((r.find? fun p => p.1 == col).map Prod.snd).getD none)))) := by
  have hcol : "user_id" ∈ t.cols := user_id_mem_of_match hmatch
  refine ⟨?_, ?_, ?_, ?_⟩
  · simp [receive_data, hfn, hcol, hmatch]
  · simp [receive_data, hfn, hcol, hmatch]
  · intro col hmem habs
    rw [lookup_map_of_mem _ _ _ hmem]
    simp [row_cell, habs]
  · intro col hmem hpres
    rw [lookup_map_of_mem _ _ _ hmem]
    simp [row_cell, hpres]

/-- Witness for C8 (amended): a table with two matching rows. -/
theorem c8_first_match_fields_witness :
    (receive_data "alice" (some ⟨"g.csv", ParsedFile.table
        ⟨["user_id", "LMP_Cycle_1"],
         [[("user_id", some "alice"), ("LMP_Cycle_1", some "2024-01-01")],
          [("user_id", some "alice"), ("LMP_Cycle_1", some "2023-12-04")]]⟩⟩)).success
      = true :=
  (c8_first_match_fields "alice" "g.csv"
    ⟨["user_id", "LMP_Cycle_1"],
     [[("user_id", some "alice"), ("LMP_Cycle_1", some "2024-01-01")],
      [("user_id", some "alice"), ("LMP_Cycle_1", some "2023-12-04")]]⟩
    [("user_id", some "alice"), ("LMP_Cycle_1", some "2024-01-01")]
    [[("user_id", some "alice"), ("LMP_Cycle_1", some "2023-12-04")]]
    (by decide) (by decide)).1

/-- Claim C9: the `/predict` JSON body is determined solely by the form
fields: two requests with identical form fields produce identical
responses whatever their uploaded BBT files (the BBT block produces only
log lines, never part of the response). -/
theorem c9_bbt_noninterference (name : String) (c1 c2 c3 p1 p2 p3 : Int) (lmp : Date)
    (b : Bool) (f1 f2 : Option FileUpload) :
    (predict_handler name c1 c2 c3 p1 p2 p3 lmp b f1).1 =
    (predict_handler name c1 c2 c3 p1 p2 p3 lmp b f2).1 := rfl

/-- Claim C10: the ten cycle-history field keys appear in the
`receive_data` response exactly when a matching row was found
(`success = true`); on every failure path the response carries only the
`success` and `message` keys. -/
theorem c10_fields_iff_success (name : String) (f : Option FileUpload) :
    ((receive_data name f).fields.isSome ↔ (receive_data name f).success = true) ∧
    ((receive_data name f).success = true →
      ((receive_data name f).fields.getD []).map Prod.fst = columns_to_load) := by
  rcases f with _ | ⟨fn, pf⟩
  · simp [receive_data]
  · by_cases hfn : (fn == "") = true
    · simp [receive_data, hfn]
    · rcases pf with e | t
      · simp [receive_data, hfn]
      · by_cases hcol : "user_id" ∈ t.cols
        · rcases hm : matching_rows t name with _ | ⟨r, rest⟩
          · simp [receive_data, hfn, hcol, hm]
          · simp [receive_data, hfn, hcol, hm, List.map_map, Function.comp_def]
        · simp [receive_data, hfn, hcol]

/-- Witness for C10 at a successful lookup. -/
theorem c10_fields_iff_success_witness :
    ((receive_data "alice" (some ⟨"h.csv", ParsedFile.table
        ⟨["user_id"], [[("user_id", some "alice")]]⟩⟩)).fields.getD []).map Prod.fst
      = columns_to_load :=
  (c10_fields_iff_success "alice" (some ⟨"h.csv", ParsedFile.table
      ⟨["user_id"], [[("user_id", some "alice")]]⟩⟩)).2 (by decide)
